import Mathlib

/-!
# Verification of the PACS/SIMPA site against its specification

Shallow embedding of the repository's two server variants and of the
client-side cart module, with theorems settling the spec's claims.

* Cart module (`src/unnamed/part_000`, lines 45–156): line items, the
  operations `add` / `inc` / `dec` / `remove` / `clear` / `total`, the
  persistence `load` path and the e-mail checkout handler.
* SQLite server (`src/server.js`): the startup seeding block, the
  `requireAdmin` gate and the `POST /events/register` handler.
* Postgres server (second half of `src/unnamed/part_000`): the
  transactional `ensureAdmin` bootstrap and the `isAuthenticated` gate.

External collaborators (the DOM, `localStorage`, `JSON.parse`, `bcrypt`,
the SQL engines, the `fr-FR` currency formatter) are modelled as inputs:
parse outcomes, hash strings, injected statement-failure flags and an
abstract formatting function.
-/

namespace PacsSimpa

/-! ## Cart data model

A cart line item as persisted under the `pacs_cart` storage key:
`{ key, id, name, price, img, variant, qty }`.  Prices (`parseFloat` of a
`data-price` attribute, SQL `REAL`) are modelled as rationals; quantities
are naturals. -/

structure CartLine where
  key : String
  id : String
  name : String
  price : ℚ
  img : String
  variant : String
  qty : Nat
  deriving DecidableEq, Repr

/-- The argument of `cart.add`: `{ id, name, price, img, variant }`
(no key, no quantity yet). -/
structure Product where
  id : String
  name : String
  price : ℚ
  img : String
  variant : String
  deriving DecidableEq, Repr

/-- `const key = product.id + (product.variant ? ':'+product.variant : '');`
JavaScript string truthiness: the empty string is falsy. -/
def cartKey (p : Product) : String :=
  p.id ++ (if p.variant = "" then "" else ":" ++ p.variant)

/-- The fresh line pushed by `add` (`{ key, ...product, qty:1 }`), with an
explicit quantity so the same constructor also describes merged lines. -/
def mkLine (p : Product) (q : Nat) : CartLine :=
  { key := cartKey p, id := p.id, name := p.name, price := p.price,
    img := p.img, variant := p.variant, qty := q }

/-- `this.items.find(i => i.key === key)` followed by `found.qty += 1`:
mutate the first line whose key matches, leave the rest alone. -/
def bumpFirst (key : String) : List CartLine → List CartLine
  | [] => []
  | i :: rest =>
      if i.key = key then { i with qty := i.qty + 1 } :: rest
      else i :: bumpFirst key rest

/-- `this.items.find(i => i.key === key)` followed by `it.qty--` (only
reached when `it.qty > 1`): decrement the first matching line. -/
def dropFirst (key : String) : List CartLine → List CartLine
  | [] => []
  | i :: rest =>
      if i.key = key then { i with qty := i.qty - 1 } :: rest
      else i :: dropFirst key rest

/-- `cart.add(product)` (part_000 lines 61–67). -/
def add (items : List CartLine) (p : Product) : List CartLine :=
  let key := cartKey p
  if items.any fun i => i.key = key then bumpFirst key items
  else items ++ [mkLine p 1]

/-- `cart.inc(key)` (part_000 line 68): if a line with the key exists,
`it.qty++`; otherwise nothing happens. -/
def inc (key : String) (items : List CartLine) : List CartLine :=
  match items.find? fun i => i.key = key with
  | some _ => bumpFirst key items
  | none => items

/-- `cart.remove(key)` (part_000 line 70):
`this.items = this.items.filter(i=>i.key!==key)`. -/
def remove (key : String) (items : List CartLine) : List CartLine :=
  items.filter fun i => ¬ i.key = key

/-- `cart.dec(key)` (part_000 line 69): if the line exists with `qty > 1`,
decrement it; in every other case fall through to `remove(key)`. -/
def dec (key : String) (items : List CartLine) : List CartLine :=
  match items.find? fun i => i.key = key with
  | some it => if it.qty > 1 then dropFirst key items else remove key items
  | none => remove key items

/-- `cart.clear()` (part_000 line 71). -/
def clear (_items : List CartLine) : List CartLine := []

/-- `cart.total()` (part_000 line 72):
`this.items.reduce((s,i)=> s + i.price*i.qty, 0)`. -/
def total (items : List CartLine) : ℚ :=
  items.foldl (fun s i => s + i.price * (i.qty : ℚ)) 0

/-- One user-visible cart mutation, for reachability statements. -/
inductive CartOp where
  | opAdd (p : Product)
  | opInc (key : String)
  | opDec (key : String)
  | opRemove (key : String)
  | opClear
  deriving DecidableEq, Repr

def applyOp (items : List CartLine) : CartOp → List CartLine
  | .opAdd p => add items p
  | .opInc k => inc k items
  | .opDec k => dec k items
  | .opRemove k => remove k items
  | .opClear => clear items

/-- The cart state after a sequence of operations starting from the empty
cart (the page-load state when nothing was persisted). -/
def runOps (ops : List CartOp) : List CartLine :=
  ops.foldl applyOp []

/-! ## Cart persistence: `cart.load` (part_000 lines 49–56)

`load` reads `localStorage.getItem(CART_KEY) || '[]'`, feeds it to
`JSON.parse` inside a `try`, sets `this.items = []` in the `catch`, and
then calls `this.updateUI()` *outside* the `try`.  `JSON.parse` is an
external collaborator; `load` is therefore modelled over its outcome: an
exception, or a JavaScript value.  Well-typed arrays are arrays of cart
lines; every other shape of value is kept as its own constructor because
`updateUI` starts with `this.items.reduce(...)`, which throws a
`TypeError` whenever `items` is not an array. -/

/-- A JavaScript value as produced by `JSON.parse`.  Arrays are modelled
at the element type the cart expects; the array/non-array distinction is
what the subsequent code observes. -/
inductive JVal where
  | jnull
  | jbool (b : Bool)
  | jnum (q : ℚ)
  | jstr (s : String)
  | jarr (elems : List CartLine)
  | jobj
  deriving DecidableEq, Repr

/-- What `cart.load()` does as observed by its caller: either it returns
normally with the given items in place (UI updated), or the
`this.items.reduce` inside `updateUI` threw a `TypeError`. -/
inductive LoadOutcome where
  | loaded (items : List CartLine)
  | typeErrorRaised
  deriving DecidableEq, Repr

/-- `cart.load()` as a function of the `JSON.parse` outcome on the stored
string (`.error ()` = the parse threw).  The `catch` replaces the items
with `[]`; `updateUI` then reduces over the items, throwing unless they
are an array. -/
def load (parsed : Except Unit JVal) : LoadOutcome :=
  let items : JVal :=
    match parsed with
    | .ok v => v
    | .error _ => .jarr []
  match items with
  | .jarr xs => .loaded xs
  | _ => .typeErrorRaised

/-! ## Checkout by e-mail (part_000 lines 146–156)

The `#checkoutEmail` click handler alerts on an empty cart and otherwise
builds a `mailto:` URL from the cart lines.  The `fr-FR` currency
formatter (`Number.prototype.toLocaleString`) is an external collaborator,
passed in as `fmt`. -/

/-- One body line:
`- ${i.name}${i.variant? ' ('+i.variant+')':''} x${i.qty} — ${(i.price*i.qty).toLocaleString(...)}`. -/
def bodyLine (fmt : ℚ → String) (i : CartLine) : String :=
  "- " ++ i.name ++ (if i.variant = "" then "" else " (" ++ i.variant ++ ")")
    ++ " x" ++ toString i.qty ++ " — " ++ fmt (i.price * (i.qty : ℚ))

/-- The full e-mail body assembled by the handler: header, one line per
cart item joined by CRLF escapes, the order total, then the blank
contact-details template. -/
def emailBody (fmt : ℚ → String) (items : List CartLine) : String :=
  "Bonjour,%0D%0A%0D%0AJe souhaite commander les articles suivants :%0D%0A"
    ++ String.intercalate "%0D%0A" (items.map (bodyLine fmt))
    ++ "%0D%0A%0D%0ATotal : " ++ fmt (total items)
    ++ "%0D%0A%0D%0ANom : %0D%0AAdresse de livraison : %0D%0ATéléphone : "
    ++ "%0D%0AMode de paiement préféré : %0D%0A%0D%0AMerci !"

/-- What the checkout click handler does: an `alert` with a warning, or a
navigation to a `mailto:` URL (a mail-client handoff, not a network
request — the handler performs no `fetch`/XHR). -/
inductive CheckoutEffect where
  | alertWarning (msg : String)
  | mailtoHandoff (url : String)
  deriving DecidableEq, Repr

/-- The `#checkoutEmail` click handler: effect produced and resulting cart
state (the handler never mutates the items). -/
def checkoutEmail (fmt : ℚ → String) (items : List CartLine) :
    CheckoutEffect × List CartLine :=
  if items.length = 0 then
    (.alertWarning "Votre panier est vide.", items)
  else
    (.mailtoHandoff
      ("mailto:contact@pacs-simpa.org?subject=Commande%20Shop%20Solidaire&body="
        ++ emailBody fmt items), items)

/-! ## HTTP responses and admin gating -/

/-- The response shapes the handlers produce: an HTTP redirect, a rendered
page, or an error status with a message. -/
inductive Response where
  | redirect (loc : String)
  | render (page : String)
  | errorStatus (code : Nat) (msg : String)
  deriving DecidableEq, Repr

/-- The session as seen by `src/server.js`: `req.session.user` is absent
or `{ id, username, role }` (set at login from the joined role name). -/
structure SessionUser where
  id : Nat
  username : String
  role : String
  deriving DecidableEq, Repr

/-- `requireAdmin` (src/server.js lines 301–306):
`if (!req.session.user || req.session.user.role !== 'admin') return
res.redirect('/login'); next();` -/
def requireAdmin (sess : Option SessionUser) : Bool :=
  match sess with
  | none => false
  | some u => u.role = "admin"

/-- An admin-surface route in `src/server.js` is registered as
`app.X(path, requireAdmin, handler)`: express runs the gate first and the
handler body only if the gate called `next()`.  Returns the response and
whether the handler body was reached. -/
def adminRoute (sess : Option SessionUser) (handlerBody : Response) :
    Response × Bool :=
  if requireAdmin sess then (handlerBody, true)
  else (.redirect "/login", false)

/-! ## Event registration: `POST /events/register` (src/server.js 251–260) -/

/-- The request body fields: absent (`undefined`) or a string.  HTML forms
submit `""` for an empty input, which is falsy in JavaScript exactly like
`undefined`. -/
structure RegisterForm where
  event_id : Option String
  name : Option String
  email : Option String
  phone : Option String
  deriving DecidableEq, Repr

/-- JavaScript truthiness of an optional string field: `undefined` and the
empty string are falsy. -/
def truthy : Option String → Bool
  | none => false
  | some s => ¬ s.isEmpty

/-- A row of the `registrations` table as written by the handler
(`phone || null` stores `NULL` for a falsy phone). -/
structure RegistrationRow where
  event_id : String
  name : String
  email : String
  phone : Option String
  deriving DecidableEq, Repr

/-- `POST /events/register`: validate `event_id`, `name`, `email`; on a
missing field answer 400 before any insert; otherwise issue exactly one
`INSERT` and redirect to `/?success=1`.  Returns the response and the
list of rows inserted by the handler. -/
def registerHandler (f : RegisterForm) : Response × List RegistrationRow :=
  if ¬ truthy f.event_id ∨ ¬ truthy f.name ∨ ¬ truthy f.email then
    (.errorStatus 400 "Tous les champs requis manquent.", [])
  else
    (.redirect "/?success=1",
      [{ event_id := f.event_id.getD "", name := f.name.getD "",
         email := f.email.getD "",
         phone := if truthy f.phone then f.phone else none }])

/-! ## Startup bootstrap: role and admin-user seeding

Both server variants seed the same data.  The store is modelled as the
two tables the bootstrap touches: `roles` (a list of names; the SQL
`AUTOINCREMENT`/`SERIAL` id of a role is its position + 1, both variants
start from a freshly created table when they insert) and `users`
(username, password hash, role id).  `bcrypt.hash('admin', 10)` is an
external collaborator, passed in as the `hash` string.  Statement
failures of the external SQL engine are injected through Boolean flags,
one per `INSERT` the bootstrap can issue. -/

structure UserRow where
  username : String
  password : String
  role_id : Nat
  deriving DecidableEq, Repr

structure Store where
  roles : List String
  users : List UserRow
  deriving DecidableEq, Repr

def Store.empty : Store := { roles := [], users := [] }

/-- `SELECT id FROM roles WHERE name = ?`: the id (position + 1) of the
first role with the given name, if any. -/
def findRoleId (s : Store) (name : String) : Option Nat :=
  (s.roles.indexOf? name).map (· + 1)

/-- Number of users whose username is `admin`. -/
def adminCount (s : Store) : Nat :=
  (s.users.filter fun u => u.username = "admin").length

/-! ### SQLite variant (src/server.js lines 131–152)

Inside `db.serialize`: count roles and insert the three role names if the
count is zero; count users and, if zero, hash the default password, look
up the admin role id (`roleRow ? roleRow.id : 1`) and insert the admin
user.  The two seeding steps are independent statements — there is no
transaction, and the callbacks ignore their `err` arguments, so a failed
insert leaves whatever the other statements already wrote. -/

/-- The serialized seeding block with injected statement failures:
`failRoleInsert` makes the roles `INSERT` fail, `failUserInsert` makes
the users `INSERT` (or the `bcrypt.hash` before it) fail.  A failed
statement writes nothing and is not retried; nothing is rolled back. -/
def serializeSeedRun (hash : String) (failRoleInsert failUserInsert : Bool)
    (s : Store) : Store :=
  let s1 :=
    if s.roles.length = 0 ∧ failRoleInsert = false then
      { s with roles := ["admin", "staff", "volunteer"] }
    else s
  if s.users.length = 0 ∧ failUserInsert = false then
    { s1 with users := s1.users ++
        [{ username := "admin", password := hash,
           role_id := (findRoleId s1 "admin").getD 1 }] }
  else s1

/-- The seeding block on a run where every statement succeeds. -/
def serializeSeed (hash : String) (s : Store) : Store :=
  serializeSeedRun hash false false s

/-! ### Postgres variant: `ensureAdmin` (part_000 lines 209–250)

`ensureAdmin` wraps its statements in `BEGIN` … `COMMIT`; the `catch`
issues `ROLLBACK` and `console.error`s the failure; nothing is re-thrown,
so the caller (`ensureAdmin().catch(...)` at startup) never surfaces it.
It seeds roles when the role count is zero, and inserts the admin user
when no user named `admin` exists, reading the admin role id first
(`roleRes.rows[0].id` — a `TypeError` when the role is absent, also
caught and rolled back). -/

/-- `ensureAdmin` with injected statement failures.  Returns the store
after `COMMIT`/`ROLLBACK` and whether a failure was caught and logged. -/
def ensureAdminRun (hash : String) (failRoleInsert failUserInsert : Bool)
    (s : Store) : Store × Bool :=
  if s.roles.length = 0 ∧ failRoleInsert = true then (s, true)
  else
    let s1 :=
      if s.roles.length = 0 then
        { s with roles := ["admin", "staff", "volunteer"] }
      else s
    if s1.users.any fun u => u.username = "admin" then (s1, false)
    else
      match findRoleId s1 "admin" with
      | none => (s, true)
      | some rid =>
          if failUserInsert = true then (s, true)
          else
            ({ s1 with users := s1.users ++
                [{ username := "admin", password := hash, role_id := rid }] },
              false)

/-- `ensureAdmin` on a run where every statement succeeds. -/
def ensureAdmin (hash : String) (s : Store) : Store :=
  (ensureAdminRun hash false false s).1

/-- A store is seeding-consistent when its roles table being populated
goes together with an admin user existing.  The atomicity claim says no
reachable post-bootstrap state breaks this both ways. -/
def seedConsistent (s : Store) : Prop :=
  (s.roles ≠ [] → adminCount s ≥ 1) ∧ (adminCount s ≥ 1 → s.roles ≠ [])

/-- `isAuthenticated` (part_000 lines 253–258) from the Postgres variant:
it only checks `req.session.userId`, not a role. -/
def isAuthenticated (sessionUserId : Option Nat) : Bool :=
  sessionUserId.isSome

/-- A Postgres-variant admin route is registered as
`app.get('/admin', isAuthenticated, handler)` (and
`app.post('/admin/add-event', …)`, `app.post('/admin/add-volunteer', …)`):
the handler body runs for any session with a `userId`. -/
def adminRoutePg (sessionUserId : Option Nat) (handlerBody : Response) :
    Response × Bool :=
  if isAuthenticated sessionUserId then (handlerBody, true)
  else (.redirect "/login", false)

/-- `SELECT … FROM users WHERE id = ?`: user ids are positional
(`SERIAL`, position + 1), like role ids. -/
def userById (s : Store) (uid : Nat) : Option UserRow :=
  s.users.get? (uid - 1)

/-- `SELECT name FROM roles WHERE id = ?`. -/
def roleNameById (s : Store) (rid : Nat) : Option String :=
  s.roles.get? (rid - 1)

/-- The role associated with a Postgres-variant session: the session
stores only `userId`; the role comes from joining `users` with `roles`
(`u.role_id = r.id`). -/
def roleOfUserId (s : Store) (uid : Nat) : Option String :=
  (userById s uid).bind fun u => roleNameById s u.role_id

/-- A row of `registrations` as inserted by the Postgres variant's
`POST /register/:id` (part_000 lines 283–296): `name` and `email` are
taken from the body with no validation, so an absent field is inserted
as SQL `NULL`. -/
structure PgRegistrationRow where
  event_id : Int
  name : Option String
  email : Option String
  deriving DecidableEq, Repr

/-- The request body of `POST /register/:id`. -/
structure PgRegisterForm where
  name : Option String
  email : Option String
  deriving DecidableEq, Repr

/-- `POST /register/:id` of the Postgres variant: no field validation —
it unconditionally issues one `INSERT` with whatever values the body
held (`NULL` for an absent field) and redirects to `/`.  `eventId` is
`parseInt(req.params.id, 10)`, supplied already parsed. -/
def pgRegisterHandler (eventId : Int) (f : PgRegisterForm) :
    Response × List PgRegistrationRow :=
  (.redirect "/", [{ event_id := eventId, name := f.name, email := f.email }])

/-! ## Shared lemmas about the cart operations -/

theorem any_key_eq_false (key : String) (items : List CartLine)
    (h : ∀ j ∈ items, ¬ j.key = key) :
    (items.any fun i => i.key = key) = false := by
  simp only [List.any_eq_false, decide_eq_true_eq]
  exact h

theorem find?_key_eq_none (key : String) (items : List CartLine)
    (h : ∀ j ∈ items, ¬ j.key = key) :
    (items.find? fun i => i.key = key) = none := by
  rw [List.find?_eq_none]
  intro i hi
  simp [h i hi]

theorem filter_key_eq_self (key : String) (items : List CartLine)
    (h : ∀ j ∈ items, ¬ j.key = key) :
    (items.filter fun i => ¬ i.key = key) = items := by
  rw [List.filter_eq_self]
  intro a ha
  simp [h a ha]

theorem bumpFirst_split (key : String) (pre post : List CartLine)
    (l : CartLine) (hpre : ∀ j ∈ pre, ¬ j.key = key) (hl : l.key = key) :
    bumpFirst key (pre ++ l :: post) = pre ++ { l with qty := l.qty + 1 } :: post := by
  induction pre with
  | nil => simp [bumpFirst, hl]
  | cons a rest ih =>
      have ha : ¬ a.key = key := hpre a (by simp)
      simp only [List.cons_append, bumpFirst, if_neg ha, List.append_eq]
      rw [ih fun j hj => hpre j (by simp [hj])]

theorem add_of_no_match (items : List CartLine) (p : Product)
    (h : ∀ j ∈ items, ¬ j.key = cartKey p) :
    add items p = items ++ [mkLine p 1] := by
  simp only [add]
  rw [any_key_eq_false (cartKey p) items h]
  simp

theorem add_of_match (pre post : List CartLine) (l : CartLine) (p : Product)
    (hpre : ∀ j ∈ pre, ¬ j.key = cartKey p) (hl : l.key = cartKey p) :
    add (pre ++ l :: post) p = pre ++ { l with qty := l.qty + 1 } :: post := by
  simp only [add]
  have hany : ((pre ++ l :: post).any fun i => i.key = cartKey p) = true := by
    simp only [List.any_eq_true, decide_eq_true_eq]
    exact ⟨l, by simp, hl⟩
  rw [hany]
  simpa using bumpFirst_split (cartKey p) pre post l hpre hl

theorem variantTag_inj (v w : String)
    (h : (if v = "" then "" else ":" ++ v) = (if w = "" then "" else ":" ++ w)) :
    v = w := by
  by_cases hv : v = "" <;> by_cases hw : w = ""
  · rw [hv, hw]
  · rw [if_pos hv, if_neg hw] at h
    have hd := congrArg String.data h
    simp [String.data_append] at hd
  · rw [if_neg hv, if_pos hw] at h
    have hd := congrArg String.data h
    simp [String.data_append] at hd
  · rw [if_neg hv, if_neg hw] at h
    have hd := congrArg String.data h
    rw [String.data_append, String.data_append] at hd
    exact String.ext (List.append_cancel_left hd)

theorem cartKey_inj_of_same_id (p q : Product) (hid : p.id = q.id)
    (hvar : ¬ p.variant = q.variant) : ¬ cartKey p = cartKey q := by
  intro h
  unfold cartKey at h
  rw [hid] at h
  have hd := congrArg String.data h
  rw [String.data_append, String.data_append] at hd
  exact hvar (variantTag_inj p.variant q.variant
    (String.ext (List.append_cancel_left hd)))

/-- The key of the line `add` pushes is the computed key. -/
theorem mkLine_key (p : Product) (q : Nat) : (mkLine p q).key = cartKey p := rfl

/-! ## Theorems for the claims -/

/-- **C1.** `cart.add(product)` computes the line key as the product id,
suffixed with `:variant` when the variant is non-empty.  When a line with
that key already exists (the first such line, at any split of the cart),
its quantity is incremented by 1 and the list keeps exactly the same
lines otherwise — nothing is appended.  When no line matches, a new line
with quantity 1 is appended.  Consequently adding the same product twice
to a cart without its key gives one line of quantity 2, and adding the
same id under two different variants gives two distinct lines with
distinct keys. -/
theorem C1_add_merges_by_key (items : List CartLine) (p : Product) :
    (cartKey p = if p.variant = "" then p.id else p.id ++ ":" ++ p.variant)
    ∧ (∀ pre l post, items = pre ++ l :: post →
        (∀ j ∈ pre, ¬ j.key = cartKey p) → l.key = cartKey p →
        add items p = pre ++ { l with qty := l.qty + 1 } :: post
          ∧ (add items p).length = items.length)
    ∧ ((∀ j ∈ items, ¬ j.key = cartKey p) →
        add items p = items ++ [mkLine p 1])
    ∧ ((∀ j ∈ items, ¬ j.key = cartKey p) →
        add (add items p) p = items ++ [mkLine p 2])
    ∧ (∀ q : Product, q.id = p.id → ¬ q.variant = p.variant →
        (∀ j ∈ items, ¬ j.key = cartKey p ∧ ¬ j.key = cartKey q) →
        ¬ cartKey p = cartKey q
          ∧ add (add items p) q = items ++ [mkLine p 1, mkLine q 1]) := by
  refine ⟨?_, ?_, ?_, ?_, ?_⟩
  · unfold cartKey
    by_cases hv : p.variant = ""
    · simp [hv]
    · rw [if_neg hv, if_neg hv, String.append_assoc]
  · intro pre l post hsplit hpre hl
    subst hsplit
    refine ⟨add_of_match pre post l p hpre hl, ?_⟩
    rw [add_of_match pre post l p hpre hl]
    simp
  · exact add_of_no_match items p
  · intro h
    rw [add_of_no_match items p h]
    have step : add (items ++ [mkLine p 1]) p
        = items ++ { mkLine p 1 with qty := (mkLine p 1).qty + 1 } :: [] :=
      add_of_match items [] (mkLine p 1) p h (mkLine_key p 1)
    rw [step]
    rfl
  · intro q hid hvar h
    have hkey : ¬ cartKey p = cartKey q := by
      intro hk
      exact cartKey_inj_of_same_id q p hid hvar hk.symm
    refine ⟨hkey, ?_⟩
    rw [add_of_no_match items p fun j hj => (h j hj).1]
    have hq : ∀ j ∈ items ++ [mkLine p 1], ¬ j.key = cartKey q := by
      intro j hj
      rcases List.mem_append.mp hj with hj | hj
      · exact (h j hj).2
      · rcases List.mem_singleton.mp hj with rfl
        rw [mkLine_key]
        intro hk
        exact hkey hk
    rw [add_of_no_match (items ++ [mkLine p 1]) q hq]
    simp

/-- Closed instance of C1: the double-add and two-variant scenarios on
the empty cart, with every hypothesis discharged concretely. -/
theorem C1_add_merges_by_key_witness :
    add (add [] { id := "p1", name := "T-shirt", price := 20, img := "i",
                  variant := "" })
        { id := "p1", name := "T-shirt", price := 20, img := "i", variant := "" }
      = [] ++ [mkLine { id := "p1", name := "T-shirt", price := 20, img := "i",
                        variant := "" } 2]
    ∧ add (add [] { id := "p1", name := "T-shirt", price := 20, img := "i",
                    variant := "L" })
          { id := "p1", name := "T-shirt", price := 20, img := "i", variant := "M" }
        = [] ++ [mkLine { id := "p1", name := "T-shirt", price := 20, img := "i",
                          variant := "L" } 1,
                 mkLine { id := "p1", name := "T-shirt", price := 20, img := "i",
                          variant := "M" } 1] :=
  ⟨(C1_add_merges_by_key []
      { id := "p1", name := "T-shirt", price := 20, img := "i",
        variant := "" }).2.2.2.1 (by simp),
   ((C1_add_merges_by_key []
      { id := "p1", name := "T-shirt", price := 20, img := "i",
        variant := "L" }).2.2.2.2
      { id := "p1", name := "T-shirt", price := 20, img := "i", variant := "M" }
      rfl (by decide) (by simp)).2⟩

theorem qty_ge_one_bumpFirst (key : String) (items : List CartLine)
    (h : ∀ i ∈ items, 1 ≤ i.qty) :
    ∀ i ∈ bumpFirst key items, 1 ≤ i.qty := by
  induction items with
  | nil => simp [bumpFirst]
  | cons a rest ih =>
      intro i hi
      unfold bumpFirst at hi
      by_cases ha : a.key = key
      · rw [if_pos ha] at hi
        rcases List.mem_cons.mp hi with rfl | hi
        · exact Nat.le_add_left 1 a.qty
        · exact h i (List.mem_cons_of_mem a hi)
      · rw [if_neg ha] at hi
        rcases List.mem_cons.mp hi with rfl | hi
        · exact h i (by simp)
        · exact ih (fun j hj => h j (List.mem_cons_of_mem a hj)) i hi

theorem qty_ge_one_dropFirst (key : String) (items : List CartLine)
    (h : ∀ i ∈ items, 1 ≤ i.qty)
    (hgt : ∀ it, (items.find? fun i => i.key = key) = some it → 1 < it.qty) :
    ∀ i ∈ dropFirst key items, 1 ≤ i.qty := by
  induction items with
  | nil => simp [dropFirst]
  | cons a rest ih =>
      intro i hi
      unfold dropFirst at hi
      by_cases ha : a.key = key
      · rw [if_pos ha] at hi
        rcases List.mem_cons.mp hi with rfl | hi
        · have hfind : ((a :: rest).find? fun i => i.key = key) = some a :=
            List.find?_cons_of_pos rest (by simp [ha])
          have := hgt a hfind
          show 1 ≤ a.qty - 1
          omega
        · exact h i (List.mem_cons_of_mem a hi)
      · rw [if_neg ha] at hi
        rcases List.mem_cons.mp hi with rfl | hi
        · exact h i (by simp)
        · refine ih (fun j hj => h j (List.mem_cons_of_mem a hj)) ?_ i hi
          intro it hit
          refine hgt it ?_
          rw [List.find?_cons_of_neg rest (by simp [ha])]
          exact hit

theorem qty_ge_one_applyOp (items : List CartLine) (op : CartOp)
    (h : ∀ i ∈ items, 1 ≤ i.qty) :
    ∀ i ∈ applyOp items op, 1 ≤ i.qty := by
  cases op with
  | opAdd p =>
      simp only [applyOp, add]
      split
      · exact qty_ge_one_bumpFirst (cartKey p) items h
      · intro i hi
        rcases List.mem_append.mp hi with hi | hi
        · exact h i hi
        · rcases List.mem_singleton.mp hi with rfl
          exact Nat.le_refl 1
  | opInc k =>
      simp only [applyOp, inc]
      split
      · exact qty_ge_one_bumpFirst k items h
      · exact h
  | opDec k =>
      simp only [applyOp, dec]
      split
      · rename_i it heq
        split
        · rename_i hq
          refine qty_ge_one_dropFirst k items h ?_
          intro it' hit'
          rw [heq] at hit'
          cases hit'
          exact hq
        · intro i hi
          exact h i (List.mem_of_mem_filter hi)
      · intro i hi
        exact h i (List.mem_of_mem_filter hi)
  | opRemove k =>
      intro i hi
      exact h i (List.mem_of_mem_filter hi)
  | opClear =>
      simp [applyOp, clear]

theorem qty_ge_one_foldl (ops : List CartOp) (items : List CartLine)
    (h : ∀ i ∈ items, 1 ≤ i.qty) :
    ∀ i ∈ ops.foldl applyOp items, 1 ≤ i.qty := by
  induction ops generalizing items with
  | nil => exact h
  | cons op rest ih =>
      exact ih (applyOp items op) (qty_ge_one_applyOp items op h)

/-- **C2.** Every line of every cart reachable from the empty cart by
`add`/`inc`/`dec`/`remove`/`clear` has quantity ≥ 1; moreover `dec` on a
cart whose first line with the key has quantity 1 behaves exactly as
`remove`, leaving no line with that key, never a quantity of 0. -/
theorem C2_qty_ge_one_reachable :
    (∀ ops : List CartOp, ∀ i ∈ runOps ops, 1 ≤ i.qty)
    ∧ (∀ (items : List CartLine) (key : String) (it : CartLine),
        (items.find? fun i => i.key = key) = some it → it.qty = 1 →
        dec key items = remove key items
          ∧ ∀ i ∈ dec key items, ¬ i.key = key) := by
  constructor
  · intro ops
    exact qty_ge_one_foldl ops [] (by simp)
  · intro items key it hfind hqty
    have hdec : dec key items = remove key items := by
      simp only [dec, hfind]
      rw [if_neg (by omega)]
    refine ⟨hdec, ?_⟩
    rw [hdec]
    intro i hi
    have := List.of_mem_filter hi
    simpa using this

/-- Closed instance of C2: a cart built by concrete operations, and a
concrete `dec`-at-quantity-1 removal, with hypotheses discharged. -/
theorem C2_qty_ge_one_reachable_witness :
    (1 : Nat) ≤ (mkLine { id := "p1", name := "T", price := 20, img := "i",
                          variant := "" } 1).qty
    ∧ dec "p1" [mkLine { id := "p1", name := "T", price := 20, img := "i",
                         variant := "" } 1]
        = remove "p1" [mkLine { id := "p1", name := "T", price := 20, img := "i",
                                variant := "" } 1] :=
  ⟨C2_qty_ge_one_reachable.1
      [CartOp.opAdd { id := "p1", name := "T", price := 20, img := "i",
                      variant := "" }]
      (mkLine { id := "p1", name := "T", price := 20, img := "i",
                variant := "" } 1)
      (by decide),
   (C2_qty_ge_one_reachable.2
      [mkLine { id := "p1", name := "T", price := 20, img := "i",
                variant := "" } 1]
      "p1"
      (mkLine { id := "p1", name := "T", price := 20, img := "i",
                variant := "" } 1)
      (by decide) rfl).1⟩

theorem foldl_add_sum (f : CartLine → ℚ) (items : List CartLine) (a : ℚ) :
    items.foldl (fun s i => s + f i) a = a + (items.map f).sum := by
  induction items generalizing a with
  | nil => simp
  | cons i rest ih =>
      simp only [List.foldl_cons, List.map_cons, List.sum_cons]
      rw [ih (a + f i)]
      ring

/-- **C9.** For every cart state, `total()` is exactly the sum of
`price * qty` over the current lines — no tax or discount term — and the
empty cart totals 0. -/
theorem C9_total_is_sum (items : List CartLine) :
    total items = (items.map fun i => i.price * (i.qty : ℚ)).sum
    ∧ total [] = 0 := by
  constructor
  · unfold total
    rw [foldl_add_sum (fun i => i.price * (i.qty : ℚ)) items 0]
    ring
  · rfl

/-- **C10.** On a key matching no current line, `inc`, `dec` and `remove`
all leave the list of cart lines unchanged. -/
theorem C10_missing_key_noop (items : List CartLine) (key : String)
    (h : ∀ i ∈ items, ¬ i.key = key) :
    inc key items = items ∧ dec key items = items ∧ remove key items = items := by
  have hfind := find?_key_eq_none key items h
  have hrem : remove key items = items := filter_key_eq_self key items h
  refine ⟨?_, ?_, hrem⟩
  · unfold inc
    rw [hfind]
  · unfold dec
    rw [hfind]
    exact hrem

/-- Closed instance of C10: a singleton cart and a key present on no
line. -/
theorem C10_missing_key_noop_witness :
    inc "zz" [mkLine { id := "p1", name := "T", price := 20, img := "i",
                       variant := "" } 1]
      = [mkLine { id := "p1", name := "T", price := 20, img := "i",
                  variant := "" } 1] :=
  (C10_missing_key_noop
    [mkLine { id := "p1", name := "T", price := 20, img := "i", variant := "" } 1]
    "zz" (by decide)).1

/-- **C3, counterexample.** In the Postgres variant, the admin route
`GET /admin` is gated only by `isAuthenticated`, which never consults a
role: a session for user 2, whose joined role is `staff` (not `admin`),
reaches the admin handler body instead of being redirected. -/
theorem C3_pg_admin_gate_ignores_role :
    roleOfUserId
        { roles := ["admin", "staff", "volunteer"],
          users := [{ username := "admin", password := "h", role_id := 1 },
                    { username := "bob", password := "h", role_id := 2 }] } 2
      = some "staff"
    ∧ adminRoutePg (some 2) (.render "admin-dashboard")
      = (.render "admin-dashboard", true) :=
  ⟨rfl, rfl⟩

/-- **C3, amended.** On the admin-surface routes of `src/server.js`
(registered as `app.get('/admin', requireAdmin, …)`,
`app.post('/admin/events/add', requireAdmin, …)`,
`app.post('/admin/volunteers/add', requireAdmin, …)`), a request with no
session user, or whose session role is not `admin`, never reaches the
handler body and is answered with a redirect to `/login` — not with an
error status.  The Postgres variant's gate `isAuthenticated` checks only
that a `userId` is in the session: every authenticated session — whatever
its user's role — reaches the admin handler body, and only sessionless
requests are redirected to `/login`. -/
theorem C3_admin_requires_admin_role (sess : Option SessionUser)
    (handlerBody : Response)
    (h : sess = none ∨ ∃ u, sess = some u ∧ ¬ u.role = "admin") :
    requireAdmin sess = false
    ∧ adminRoute sess handlerBody = (.redirect "/login", false)
    ∧ (∀ code msg, ¬ (adminRoute sess handlerBody).1 = .errorStatus code msg)
    ∧ (∀ uid : Nat, adminRoutePg (some uid) handlerBody = (handlerBody, true))
    ∧ adminRoutePg none handlerBody = (.redirect "/login", false) := by
  have hgate : requireAdmin sess = false := by
    rcases h with rfl | ⟨u, rfl, hrole⟩
    · rfl
    · simp [requireAdmin, hrole]
  refine ⟨hgate, ?_, ?_, ?_, rfl⟩
  · simp [adminRoute, hgate]
  · intro code msg
    simp [adminRoute, hgate]
  · intro uid
    rfl

/-- Closed instance of C3: a logged-in `staff` session asking for the
dashboard is redirected to `/login` without the handler running. -/
theorem C3_admin_requires_admin_role_witness :
    adminRoute (some { id := 2, username := "bob", role := "staff" })
        (.render "admin") = (.redirect "/login", false) :=
  (C3_admin_requires_admin_role
    (some { id := 2, username := "bob", role := "staff" }) (.render "admin")
    (Or.inr ⟨{ id := 2, username := "bob", role := "staff" }, rfl,
      by decide⟩)).2.1

/-- **C6, counterexample.** The Postgres variant's event-registration
endpoint `POST /register/:id` performs no validation: with the `email`
field absent it does not answer 400 — it issues one `INSERT` (with
`NULL` e-mail) and redirects to `/`. -/
theorem C6_pg_register_skips_validation :
    pgRegisterHandler 1 { name := some "Alice", email := none }
      = (.redirect "/", [{ event_id := 1, name := some "Alice", email := none }])
    ∧ ¬ (pgRegisterHandler 1 { name := some "Alice", email := none }).1
        = .errorStatus 400 "Tous les champs requis manquent."
    ∧ (pgRegisterHandler 1 { name := some "Alice", email := none }).2.length
      = 1 := by
  refine ⟨rfl, ?_, rfl⟩
  intro h
  cases h

/-- **C6, amended.** `POST /events/register` of `src/server.js`: a falsy
`event_id`, `name` or `email` is answered 400 before any insert (no row
is created); when the three required fields are present the handler
inserts exactly one registration row and redirects to the
success-flagged home view `/?success=1`.  The Postgres variant's
`POST /register/:id`, in contrast, validates nothing: for every body it
issues exactly one `INSERT`, carrying `NULL` for any absent field, and
redirects to `/`. -/
theorem C6_register_validates_then_inserts (f : RegisterForm) :
    ((truthy f.event_id = false ∨ truthy f.name = false ∨ truthy f.email = false) →
      registerHandler f = (.errorStatus 400 "Tous les champs requis manquent.", []))
    ∧ (truthy f.event_id = true → truthy f.name = true → truthy f.email = true →
      registerHandler f
        = (.redirect "/?success=1",
           [{ event_id := f.event_id.getD "", name := f.name.getD "",
              email := f.email.getD "",
              phone := if truthy f.phone then f.phone else none }])
        ∧ (registerHandler f).2.length = 1)
    ∧ (∀ (eventId : Int) (g : PgRegisterForm),
        pgRegisterHandler eventId g
          = (.redirect "/",
             [{ event_id := eventId, name := g.name, email := g.email }])) := by
  refine ⟨?_, ?_, fun _ _ => rfl⟩
  · intro h
    rcases h with h | h | h <;> simp [registerHandler, h]
  · intro h1 h2 h3
    constructor
    · simp [registerHandler, h1, h2, h3]
    · simp [registerHandler, h1, h2, h3]

/-- Closed instance of C6: a missing e-mail short-circuits with 400 and
no row; a complete form inserts one row. -/
theorem C6_register_validates_then_inserts_witness :
    registerHandler { event_id := some "1", name := some "Alice",
                      email := none, phone := none }
      = (.errorStatus 400 "Tous les champs requis manquent.", [])
    ∧ (registerHandler { event_id := some "1", name := some "Alice",
                         email := some "a@b.fr", phone := none }).2.length = 1 :=
  ⟨(C6_register_validates_then_inserts
      { event_id := some "1", name := some "Alice", email := none,
        phone := none }).1 (Or.inr (Or.inr rfl)),
   ((C6_register_validates_then_inserts
      { event_id := some "1", name := some "Alice", email := some "a@b.fr",
        phone := none }).2.1 rfl rfl rfl).2⟩

/-- **C7, counterexample.** The stored string `"null"` parses successfully
to the JSON value `null`; `load` then assigns it to `items` and the
`this.items.reduce` in `updateUI` raises a `TypeError` to the caller —
`cart.load()` does not degrade every stored value to an empty cart. -/
theorem C7_load_nonarray_raises : load (.ok .jnull) = .typeErrorRaised := rfl

/-- **C7, amended.** `cart.load()` never raises when the stored value is
missing or fails to parse: a parse exception yields the empty cart.  A
stored value parsing to an array becomes the cart state.  But a stored
value parsing to a non-array JSON value is assigned as-is and the
subsequent UI update raises a `TypeError`. -/
theorem C7_load_parse_failure_degrades (parsed : Except Unit JVal) :
    (parsed = .error () → load parsed = .loaded [])
    ∧ (∀ xs, parsed = .ok (.jarr xs) → load parsed = .loaded xs)
    ∧ ((∀ xs, ¬ parsed = .ok (.jarr xs)) → load parsed ≠ .typeErrorRaised →
        ∃ xs, load parsed = .loaded xs) := by
  cases parsed with
  | error e =>
      cases e
      refine ⟨fun _ => rfl, ?_, ?_⟩
      · intro xs h
        cases h
      · intro _ _
        exact ⟨[], rfl⟩
  | ok v =>
      cases v with
      | jarr xs =>
          refine ⟨?_, ?_, ?_⟩
          · intro h
            cases h
          · intro ys h
            cases h
            rfl
          · intro _ _
            exact ⟨xs, rfl⟩
      | jnull =>
          refine ⟨?_, ?_, ?_⟩
          · intro h
            cases h
          · intro ys h
            cases h
          · intro _ h
            exact absurd rfl h
      | jbool b =>
          refine ⟨?_, ?_, ?_⟩
          · intro h
            cases h
          · intro ys h
            cases h
          · intro _ h
            exact absurd rfl h
      | jnum q =>
          refine ⟨?_, ?_, ?_⟩
          · intro h
            cases h
          · intro ys h
            cases h
          · intro _ h
            exact absurd rfl h
      | jstr s =>
          refine ⟨?_, ?_, ?_⟩
          · intro h
            cases h
          · intro ys h
            cases h
          · intro _ h
            exact absurd rfl h
      | jobj =>
          refine ⟨?_, ?_, ?_⟩
          · intro h
            cases h
          · intro ys h
            cases h
          · intro _ h
            exact absurd rfl h

/-- Closed instance of amended C7: a parse exception leaves the cart
empty with no error surfaced. -/
theorem C7_load_parse_failure_degrades_witness :
    load (.error ()) = .loaded [] :=
  (C7_load_parse_failure_degrades (.error ())).1 rfl

/-- **C8.** The checkout click handler: on an empty cart it only raises
the user-visible warning alert and leaves the cart untouched; on a
non-empty cart it navigates to a `mailto:` URL (a mail-client handoff,
no network request) whose body is the greeting, one formatted line per
cart line, and the trailing order total — again leaving the cart
untouched and showing no warning. -/
theorem C8_checkout_empty_warns_else_mailto (fmt : ℚ → String)
    (items : List CartLine) :
    (items = [] →
      checkoutEmail fmt items = (.alertWarning "Votre panier est vide.", items))
    ∧ (¬ items = [] →
      checkoutEmail fmt items
        = (.mailtoHandoff
            ("mailto:contact@pacs-simpa.org?subject=Commande%20Shop%20Solidaire&body="
              ++ ("Bonjour,%0D%0A%0D%0AJe souhaite commander les articles suivants :%0D%0A"
                  ++ String.intercalate "%0D%0A" (items.map (bodyLine fmt))
                  ++ "%0D%0A%0D%0ATotal : " ++ fmt (total items)
                  ++ "%0D%0A%0D%0ANom : %0D%0AAdresse de livraison : %0D%0ATéléphone : "
                  ++ "%0D%0AMode de paiement préféré : %0D%0A%0D%0AMerci !")),
           items)
        ∧ (items.map (bodyLine fmt)).length = items.length
        ∧ ∀ msg, ¬ (checkoutEmail fmt items).1 = .alertWarning msg) := by
  constructor
  · rintro rfl
    rfl
  · intro h
    have hlen : ¬ items.length = 0 := by
      simpa [List.length_eq_zero] using h
    refine ⟨?_, by simp, ?_⟩
    · simp only [checkoutEmail, if_neg hlen, emailBody]
    · intro msg
      simp [checkoutEmail, h]

/-- Closed instance of C8: the empty cart warns and stays empty; a
one-line cart produces exactly one body line. -/
theorem C8_checkout_empty_warns_else_mailto_witness :
    checkoutEmail (fun _ => "E") [] = (.alertWarning "Votre panier est vide.", [])
    ∧ ([mkLine { id := "p1", name := "T", price := 20, img := "i",
                 variant := "" } 1].map
        (bodyLine fun _ => "E")).length
      = [mkLine { id := "p1", name := "T", price := 20, img := "i",
                  variant := "" } 1].length :=
  ⟨(C8_checkout_empty_warns_else_mailto (fun _ => "E") []).1 rfl,
   ((C8_checkout_empty_warns_else_mailto (fun _ => "E")
      [mkLine { id := "p1", name := "T", price := 20, img := "i",
                variant := "" } 1]).2 (by simp)).2.1⟩

/-! ## Lemmas about the bootstrap -/

theorem adminCount_pos_of_any (users : List UserRow)
    (h : (users.any fun u => u.username = "admin") = true) :
    1 ≤ (users.filter fun u => u.username = "admin").length := by
  obtain ⟨u, hu, hdec⟩ := List.any_eq_true.mp h
  have hmem : u ∈ users.filter fun u => u.username = "admin" :=
    List.mem_filter.mpr ⟨hu, hdec⟩
  have := List.length_pos.mpr (List.ne_nil_of_mem hmem)
  omega

theorem findRoleId_seeded (s : Store) :
    findRoleId { s with roles := ["admin", "staff", "volunteer"] } "admin"
      = some 1 := rfl

theorem ensureAdmin_stable (hash : String) (t : Store)
    (hroles : ¬ t.roles.length = 0)
    (hadmin : (t.users.any fun u => u.username = "admin") = true) :
    ensureAdmin hash t = t := by
  simp [ensureAdmin, ensureAdminRun, hroles, hadmin]

theorem ensureAdmin_cases (hash : String) (s : Store) :
    ensureAdmin hash s = s
    ∨ (¬ (ensureAdmin hash s).roles.length = 0
        ∧ ((ensureAdmin hash s).users.any fun u => u.username = "admin") = true) := by
  by_cases h1 : s.roles.length = 0
  · by_cases h2 : (s.users.any fun u => u.username = "admin") = true
    · refine Or.inr ?_
      have hres : ensureAdmin hash s
          = { s with roles := ["admin", "staff", "volunteer"] } := by
        simp [ensureAdmin, ensureAdminRun, h1, h2]
      rw [hres]
      exact ⟨by simp, h2⟩
    · refine Or.inr ?_
      have hres : ensureAdmin hash s
          = { s with
                roles := ["admin", "staff", "volunteer"],
                users := s.users ++ [{ username := "admin", password := hash,
                                       role_id := 1 }] } := by
        simp [ensureAdmin, ensureAdminRun, h1, h2, findRoleId_seeded]
      rw [hres]
      exact ⟨by simp, by simp⟩
  · by_cases h2 : (s.users.any fun u => u.username = "admin") = true
    · exact Or.inl (ensureAdmin_stable hash s h1 h2)
    · cases h3 : findRoleId s "admin" with
      | none =>
          refine Or.inl ?_
          simp [ensureAdmin, ensureAdminRun, h1, h2, h3]
      | some rid =>
          refine Or.inr ?_
          have hres : ensureAdmin hash s
              = { s with
                    users := s.users ++ [{ username := "admin",
                                           password := hash,
                                           role_id := rid }] } := by
            simp [ensureAdmin, ensureAdminRun, h1, h2, h3]
          rw [hres]
          exact ⟨h1, by simp⟩

/-- **C4.** Both startup bootstraps are idempotent: running the SQLite
seeding block or the Postgres `ensureAdmin` twice on any store gives the
same store as running it once, and from an empty store one run yields
exactly the three seeded roles and exactly one user named `admin`. -/
theorem C4_bootstrap_idempotent (hash : String) (s : Store) :
    serializeSeed hash (serializeSeed hash s) = serializeSeed hash s
    ∧ ensureAdmin hash (ensureAdmin hash s) = ensureAdmin hash s
    ∧ (serializeSeed hash Store.empty).roles = ["admin", "staff", "volunteer"]
    ∧ adminCount (serializeSeed hash Store.empty) = 1
    ∧ (ensureAdmin hash Store.empty).roles = ["admin", "staff", "volunteer"]
    ∧ adminCount (ensureAdmin hash Store.empty) = 1 := by
  refine ⟨?_, ?_, rfl, rfl, rfl, rfl⟩
  · by_cases h1 : s.roles.length = 0 <;> by_cases h2 : s.users.length = 0 <;>
      simp [serializeSeed, serializeSeedRun, h1, h2]
  · rcases ensureAdmin_cases hash s with h | ⟨hroles, hadmin⟩
    · rw [h]
      exact h
    · exact ensureAdmin_stable hash (ensureAdmin hash s) hroles hadmin

/-- **C5, counterexample.** The SQLite seeding block is not atomic: with
the role insert succeeding and the admin-user insert failing, starting
from an empty store, the roles table ends up populated with no admin
user — a reachable post-bootstrap state the claim rules out. -/
theorem C5_sqlite_seed_not_atomic :
    serializeSeedRun "h" false true Store.empty
      = { roles := ["admin", "staff", "volunteer"], users := [] }
    ∧ ¬ seedConsistent (serializeSeedRun "h" false true Store.empty) := by
  constructor
  · rfl
  · intro hc
    have h1 := hc.1 (by decide)
    revert h1
    decide

/-- **C5, amended.** The Postgres `ensureAdmin` bootstrap is atomic: on
any injected statement failure it reports a caught (logged) error and
leaves the store exactly as it was; it maps seeding-consistent stores to
seeding-consistent stores; and from the empty store every outcome is
all-or-nothing — either untouched, or fully seeded with the three roles
and exactly one admin user. -/
theorem C5_ensureAdmin_atomic (hash : String) (f1 f2 : Bool) (s : Store) :
    ((ensureAdminRun hash f1 f2 s).2 = true → (ensureAdminRun hash f1 f2 s).1 = s)
    ∧ (seedConsistent s → seedConsistent (ensureAdminRun hash f1 f2 s).1)
    ∧ ((ensureAdminRun hash f1 f2 Store.empty).1 = Store.empty
        ∨ ((ensureAdminRun hash f1 f2 Store.empty).1.roles
              = ["admin", "staff", "volunteer"]
            ∧ adminCount (ensureAdminRun hash f1 f2 Store.empty).1 = 1)) := by
  refine ⟨?_, ?_, ?_⟩
  · by_cases h1 : s.roles.length = 0
    · by_cases hf1 : f1 = true
      · simp [ensureAdminRun, h1, hf1]
      · by_cases h2 : (s.users.any fun u => u.username = "admin") = true
        · simp [ensureAdminRun, h1, hf1, h2]
        · by_cases hD : f2 = true
          · simp [ensureAdminRun, h1, hf1, h2, hD, findRoleId_seeded]
          · simp [ensureAdminRun, h1, hf1, h2, hD, findRoleId_seeded]
    · by_cases h2 : (s.users.any fun u => u.username = "admin") = true
      · simp [ensureAdminRun, h1, h2]
      · cases h3 : findRoleId s "admin" with
        | none => simp [ensureAdminRun, h1, h2, h3]
        | some rid =>
            by_cases hD : f2 = true
            · simp [ensureAdminRun, h1, h2, h3, hD]
            · simp [ensureAdminRun, h1, h2, h3, hD]
  · intro hs
    by_cases h1 : s.roles.length = 0
    · by_cases hf1 : f1 = true
      · have hres : (ensureAdminRun hash f1 f2 s).1 = s := by
          simp [ensureAdminRun, h1, hf1]
        rw [hres]
        exact hs
      · by_cases h2 : (s.users.any fun u => u.username = "admin") = true
        · have hres : (ensureAdminRun hash f1 f2 s).1
              = { s with roles := ["admin", "staff", "volunteer"] } := by
            simp [ensureAdminRun, h1, hf1, h2]
          rw [hres]
          constructor
          · intro _
            simpa [adminCount] using adminCount_pos_of_any s.users h2
          · intro _
            simp
        · by_cases hD : f2 = true
          · have hres : (ensureAdminRun hash f1 f2 s).1 = s := by
              simp [ensureAdminRun, h1, hf1, h2, hD, findRoleId_seeded]
            rw [hres]
            exact hs
          · have hres : (ensureAdminRun hash f1 f2 s).1
                = { s with
                      roles := ["admin", "staff", "volunteer"],
                      users := s.users ++ [{ username := "admin",
                                             password := hash,
                                             role_id := 1 }] } := by
              simp [ensureAdminRun, h1, hf1, h2, hD, findRoleId_seeded]
            rw [hres]
            constructor
            · intro _
              simp [adminCount, List.filter_append]
            · intro _
              simp
    · by_cases h2 : (s.users.any fun u => u.username = "admin") = true
      · have hres : (ensureAdminRun hash f1 f2 s).1 = s := by
          simp [ensureAdminRun, h1, h2]
        rw [hres]
        exact hs
      · cases h3 : findRoleId s "admin" with
        | none =>
            have hres : (ensureAdminRun hash f1 f2 s).1 = s := by
              simp [ensureAdminRun, h1, h2, h3]
            rw [hres]
            exact hs
        | some rid =>
            by_cases hD : f2 = true
            · have hres : (ensureAdminRun hash f1 f2 s).1 = s := by
                simp [ensureAdminRun, h1, h2, h3, hD]
              rw [hres]
              exact hs
            · have hres : (ensureAdminRun hash f1 f2 s).1
                  = { s with
                        users := s.users ++ [{ username := "admin",
                                               password := hash,
                                               role_id := rid }] } := by
                simp [ensureAdminRun, h1, h2, h3, hD]
              rw [hres]
              constructor
              · intro _
                simp [adminCount, List.filter_append]
              · intro _
                intro hnil
                exact h1 (by simp [show s.roles = [] from hnil])
  · cases f1 <;> cases f2
    · exact Or.inr ⟨rfl, rfl⟩
    · exact Or.inl rfl
    · exact Or.inl rfl
    · exact Or.inl rfl

/-- Closed instance of amended C5: an injected failure of the admin-user
insert on the empty store is rolled back to the empty store, and a
fully successful run preserves seeding consistency of the empty store. -/
theorem C5_ensureAdmin_atomic_witness :
    (ensureAdminRun "h" false true Store.empty).1 = Store.empty
    ∧ seedConsistent (ensureAdminRun "h" false false Store.empty).1 :=
  ⟨(C5_ensureAdmin_atomic "h" false true Store.empty).1 rfl,
   (C5_ensureAdmin_atomic "h" false false Store.empty).2.1
     ⟨fun h => absurd rfl h, fun h => absurd h (by decide)⟩⟩

end PacsSimpa
